import Mathlib

/-!
Verification development for the asset-loading module `src/resources.rs`
(functions `load_model` and `load_gltf`).

Modelling conventions:
- Rust `f32` attribute scalars are only moved around (never computed with),
  so they are represented by `Int` stand-ins.
- Machine-integer casts are explicit: `indices.len() as u32` becomes
  `indices.length % 2 ^ 32`.
- A Rust process abort (`panic!` via `unwrap`, out-of-bounds indexing,
  a `todo` or `unimplemented` placeholder) is the `Outcome.panicked msg`
  constructor; a typed error value returned to the caller (an `anyhow`
  error propagated with `?`) is `Outcome.err e`.  The two are kept
  distinct because the spec's propagation policy is exactly about this
  difference.
- GPU buffer creation (`device.create_buffer_init`) is modelled as the
  construction of a `GpuBuffer` record holding the logical contents and
  the usage flag; `bytemuck::cast_slice` byte packing is modelled by the
  logical sequence itself (no claim here is about the byte encoding).
  Debug labels are not modelled.
-/

set_option autoImplicit false
set_option maxRecDepth 8192

/-- Result of running a piece of the loader: `ok` is a normal return,
`err` a typed error value handed back to the caller (Rust `Err` propagated
with `?`), `panicked` a process abort (Rust `panic!`, `unwrap` on a failed
`Result`/`Option`, out-of-bounds slice indexing, `todo!`, `unimplemented!`). -/
inductive Outcome (α : Type) where
  | ok : α → Outcome α
  | err : String → Outcome α
  | panicked : String → Outcome α
deriving DecidableEq, Repr

namespace Outcome

def bind {α β : Type} : Outcome α → (α → Outcome β) → Outcome β
  | ok a, f => f a
  | err e, _ => err e
  | panicked m, _ => panicked m

def map {α β : Type} (f : α → β) : Outcome α → Outcome β
  | ok a => ok (f a)
  | err e => err e
  | panicked m => panicked m

instance : Monad Outcome where
  pure := ok
  bind := bind
  map := map

@[simp] theorem bind_ok {α β : Type} (a : α) (f : α → Outcome β) :
    bind (ok a) f = f a := rfl

theorem bind_eq_ok {α β : Type} {x : Outcome α} {f : α → Outcome β} {b : β} :
    bind x f = ok b ↔ ∃ a, x = ok a ∧ f a = ok b := by
  cases x <;> simp [bind]

theorem map_eq_ok {α β : Type} {x : Outcome α} {f : α → β} {b : β} :
    map f x = ok b ↔ ∃ a, x = ok a ∧ f a = b := by
  cases x <;> simp [map]

@[simp] theorem monad_bind_eq_bind {α β : Type} (x : Outcome α) (f : α → Outcome β) :
    x >>= f = bind x f := rfl

@[simp] theorem pure_eq_ok {α : Type} (a : α) : (pure a : Outcome α) = ok a := rfl

end Outcome

/-- Buffer usage flag passed to `device.create_buffer_init`
(`wgpu::BufferUsages::VERTEX` or `wgpu::BufferUsages::INDEX`). -/
inductive BufferUsage where
  | vertex
  | index
deriving DecidableEq, Repr

/-- Vertex record built at `resources.rs` lines 125-137
(`model::ModelVertex { position, tex_coords, normal }`). -/
structure ModelVertex where
  position : List Int
  tex_coords : List Int
  normal : List Int
deriving DecidableEq, Repr

/-- Logical contents of a created GPU buffer: interleaved vertices
(`cast_slice(&vertices)`), an index sequence (`cast_slice(&m.mesh.indices)`),
or a raw byte slice (the glTF path). -/
inductive BufferContents where
  | vertexData : List ModelVertex → BufferContents
  | indexData : List Nat → BufferContents
  | rawBytes : List Nat → BufferContents
deriving DecidableEq, Repr

/-- A buffer returned by `device.create_buffer_init`. -/
structure GpuBuffer where
  contents : BufferContents
  usage : BufferUsage
deriving DecidableEq, Repr

/-- The `model::Mesh` record constructed at `resources.rs` lines 151-157.
The struct is declared in the (absent) `model` module; its shape is read
off the construction site. -/
structure Mesh where
  name : String
  vertex_buffer : GpuBuffer
  index_buffer : GpuBuffer
  num_elements : Nat
  material : Nat
deriving DecidableEq, Repr

/-- The geometry part of a `tobj::Model` as used by `load_model`:
flat `f32` streams `positions`/`texcoords`/`normals`, the triangulated
single-index `indices` (`u32` values), and the optional `material_id`. -/
structure ObjMesh where
  positions : List Int
  texcoords : List Int
  normals : List Int
  indices : List Nat
  material_id : Option Nat
deriving DecidableEq, Repr

/-- A parsed `tobj::Model`: the object name from the OBJ text plus its mesh. -/
structure ObjModel where
  name : String
  mesh : ObjMesh
deriving DecidableEq, Repr

/-- Rust indexing `l[i]` on a slice/Vec: the element when in bounds,
otherwise a panic (process abort), never a typed error. -/
def idxRead (l : List Int) (i : Nat) : Outcome Int :=
  match l[i]? with
  | some x => Outcome.ok x
  | none => Outcome.panicked "index out of bounds"

/-- Vertex construction for shared index `i`, `resources.rs` lines 125-137:
`position` from `positions[i*3 .. i*3+3]`, `tex_coords` from
`texcoords[i*2 .. i*2+2]`, `normal` from `normals[i*3 .. i*3+3]`,
each read with panicking indexing. -/
def vertexAt (m : ObjMesh) (i : Nat) : Outcome ModelVertex := do
  let p0 ← idxRead m.positions (i * 3)
  let p1 ← idxRead m.positions (i * 3 + 1)
  let p2 ← idxRead m.positions (i * 3 + 2)
  let t0 ← idxRead m.texcoords (i * 2)
  let t1 ← idxRead m.texcoords (i * 2 + 1)
  let n0 ← idxRead m.normals (i * 3)
  let n1 ← idxRead m.normals (i * 3 + 1)
  let n2 ← idxRead m.normals (i * 3 + 2)
  pure { position := [p0, p1, p2], tex_coords := [t0, t1], normal := [n0, n1, n2] }

/-- Sequential evaluation of `vertexAt` over a list of shared indices,
mirroring `(0..len/3).map(...).collect::<Vec<_>>()`: the first panicking
index aborts the whole construction. -/
def buildVerticesAux (m : ObjMesh) : List Nat → Outcome (List ModelVertex)
  | [] => Outcome.ok []
  | i :: is =>
    match vertexAt m i, buildVerticesAux m is with
    | Outcome.ok v, Outcome.ok vs => Outcome.ok (v :: vs)
    | Outcome.ok _, Outcome.err e => Outcome.err e
    | Outcome.ok _, Outcome.panicked msg => Outcome.panicked msg
    | Outcome.err e, _ => Outcome.err e
    | Outcome.panicked msg, _ => Outcome.panicked msg

/-- The vertex vector of `resources.rs` lines 124-138:
one `ModelVertex` per shared index in `0 .. positions.len() / 3`. -/
def buildVertices (m : ObjMesh) : Outcome (List ModelVertex) :=
  buildVerticesAux m (List.range (m.positions.length / 3))

/-- Mesh construction for one parsed submesh, `resources.rs` lines 123-158:
interleave the vertices, create the vertex buffer (vertex usage) and index
buffer (index usage), set `num_elements` to `indices.len() as u32` and
`material` to `material_id.unwrap_or(0)`; `name` is the `file_name`
argument of the load call. -/
def buildMesh (file_name : String) (mdl : ObjModel) : Outcome Mesh :=
  Outcome.map
    (fun vertices =>
      { name := file_name
        vertex_buffer := { contents := BufferContents.vertexData vertices, usage := BufferUsage.vertex }
        index_buffer := { contents := BufferContents.indexData mdl.mesh.indices, usage := BufferUsage.index }
        num_elements := mdl.mesh.indices.length % 2 ^ 32
        material := mdl.mesh.material_id.getD 0 })
    (buildVertices mdl.mesh)

/-- The meshes pipeline of `load_model`, `resources.rs` lines 121-159:
`models.into_iter().map(...).collect()`, one `Mesh` per parsed submesh.
The earlier stages of `load_model` (text retrieval, `tobj` parsing, the
material loop) run before this point; claims about produced meshes are
claims about this map, so it takes the parsed `tobj` models as input. -/
def load_model_meshes (file_name : String) : List ObjModel → Outcome (List Mesh)
  | [] => Outcome.ok []
  | mdl :: rest =>
    match buildMesh file_name mdl, load_model_meshes file_name rest with
    | Outcome.ok mesh, Outcome.ok meshes => Outcome.ok (mesh :: meshes)
    | Outcome.ok _, Outcome.err e => Outcome.err e
    | Outcome.ok _, Outcome.panicked msg => Outcome.panicked msg
    | Outcome.err e, _ => Outcome.err e
    | Outcome.panicked msg, _ => Outcome.panicked msg

/-- Sample parsed OBJ submesh: one vertex, three (degenerate) indices,
material id 2; the object name differs from the file name on purpose. -/
def sampleObjModel : ObjModel :=
  { name := "cube",
    mesh := { positions := [1, 2, 3], texcoords := [4, 5], normals := [6, 7, 8],
              indices := [0, 0, 0], material_id := some 2 } }

/-- The mesh `buildMesh` produces from `sampleObjModel` under file name
`cube.obj`. -/
def sampleMesh : Mesh :=
  { name := "cube.obj",
    vertex_buffer :=
      { contents := BufferContents.vertexData
          [{ position := [1, 2, 3], tex_coords := [4, 5], normal := [6, 7, 8] }],
        usage := BufferUsage.vertex },
    index_buffer := { contents := BufferContents.indexData [0, 0, 0], usage := BufferUsage.index },
    num_elements := 3,
    material := 2 }

example : buildMesh "cube.obj" sampleObjModel = Outcome.ok sampleMesh := by decide

/-! ## The glTF side (`load_gltf`, `resources.rs` lines 164-246)

The `gltf` crate objects are modelled structurally: a document carries the
flat accessor table (`gltf.accessors().collect()`, line 181) and the mesh
list; a primitive carries the optional index of its indices accessor
(`primitive.indices()` returns an `Option`, `.index()` the position in the
accessor table) and its attribute list; an accessor carries its optional
buffer view; a view carries byte `offset`, byte `length` and its buffer;
a buffer carries its source (embedded binary or external URI).

`gltf::Gltf::open(path)?` (line 179) is the one failure the function
propagates as a typed error; it is modelled by taking the open result
(`Except String GltfDoc`) as the input. -/

/-- Attribute semantic (`gltf::mesh::Semantic`): positions, normals,
texture coordinates of a given set, or anything else. -/
inductive GSemantic where
  | positions
  | normals
  | texCoords : Nat → GSemantic
  | other : String → GSemantic
deriving DecidableEq, Repr, BEq

/-- Buffer source (`gltf::buffer::Source`): embedded binary blob or
external URI. -/
inductive BufferSource where
  | bin
  | uri : String → BufferSource
deriving DecidableEq, Repr

/-- A glTF buffer (`gltf::Buffer`), reduced to its source. -/
structure GBuffer where
  source : BufferSource
deriving DecidableEq, Repr

/-- A glTF buffer view (`gltf::buffer::View`): byte offset and length into
its buffer. -/
structure BufferView where
  offset : Nat
  length : Nat
  buffer : GBuffer
deriving DecidableEq, Repr

/-- A glTF accessor (`gltf::Accessor`), reduced to its optional buffer view
(`accessor.view()` is `None` for sparse accessors). -/
structure GAccessor where
  view : Option BufferView
deriving DecidableEq, Repr

/-- A glTF primitive (`gltf::mesh::Primitive`): the optional accessor-table
index of its indices accessor, and its attribute list. -/
structure GPrimitive where
  indices : Option Nat
  attributes : List (GSemantic × Nat)
deriving DecidableEq, Repr

/-- A glTF mesh (`gltf::mesh::Mesh`): optional name and primitive list. -/
structure GMeshIn where
  name : Option String
  primitives : List GPrimitive
deriving DecidableEq, Repr

/-- A parsed glTF document: flat accessor table plus meshes. -/
structure GltfDoc where
  accessors : List GAccessor
  meshes : List GMeshIn
deriving DecidableEq, Repr

/-- The `model::GLTFPrimitive` record (`resources.rs` lines 234-239).
Its construction site fills every field with a `todo!()` placeholder, so
no value of this type is ever produced by the code as it stands. -/
structure GLTFPrimitive where
  vertex_buffer : GpuBuffer
  index_buffer : GpuBuffer
  num_elements : Nat
  material : Nat
deriving DecidableEq, Repr

/-- The `model::GLTFMesh` record (`resources.rs` line 242). -/
structure GLTFMesh where
  name : String
  primitives : List GLTFPrimitive
deriving DecidableEq, Repr

/-- The `model::GLTFModel` aggregate returned by a completed `load_gltf`
(shape per spec section 3; the code never reaches a return). -/
structure GLTFModel where
  meshes : List GLTFMesh
deriving DecidableEq, Repr

/-- Rust `slice.get(a..b)`: `some` of the sub-slice exactly when
`a <= b` and `b <= len`, otherwise `none`. -/
def sliceGet (l : List Nat) (a b : Nat) : Option (List Nat) :=
  if a ≤ b ∧ b ≤ l.length then some ((l.drop a).take (b - a)) else none

/-- The `index_buffer` computation of `resources.rs` lines 212-231.
In the source this `match buffer.source()` is statically unreachable:
the `todo!` at line 210 aborts every iteration first; it is embedded on
its own so its text can be checked.  `Source::Bin` hits `unimplemented!()`
(a panic); `Source::Uri` fetches with `load_binary` (panicking via
`.context("binary file not found").unwrap()` on failure), takes the byte
range `view.offset() .. view.offset() + view.length()` (panicking via
`.context("buffer slice not found").unwrap()` when the fetched buffer is
too short), and creates the buffer with `wgpu::BufferUsages::VERTEX`. -/
def indexBufferFromSource (load_binary : String → Except String (List Nat))
    (view : BufferView) : Outcome GpuBuffer :=
  match view.buffer.source with
  | BufferSource.bin => Outcome.panicked "not implemented"
  | BufferSource.uri u =>
    match load_binary u with
    | Except.error _ => Outcome.panicked "binary file not found"
    | Except.ok binary_file =>
      match sliceGet binary_file view.offset (view.offset + view.length) with
      | none => Outcome.panicked "buffer slice not found"
      | some buffer_slice =>
        Outcome.ok { contents := BufferContents.rawBytes buffer_slice, usage := BufferUsage.vertex }

/-- One iteration of the primitive loop, `resources.rs` lines 187-239.
Each `.context(...).unwrap()` is a panic (process abort), not a typed
error; a primitive that survives the lookups reaches the
`todo!("Build vertex buffer using PrimitiveVertex struct and bytemuck")`
placeholder at line 210 and panics there, so the `GLTFPrimitive` push at
line 234 is unreachable. -/
def processPrimitive (accessors : List GAccessor) (p : GPrimitive) : Outcome GLTFPrimitive :=
  match p.indices with
  | none => Outcome.panicked "primitive has no indices"
  | some gltf_primitive_indices =>
    match accessors[gltf_primitive_indices]? with
    | none => Outcome.panicked "accessor not found"
    | some accessor =>
      match accessor.view with
      | none => Outcome.panicked "accessor has no view"
      | some view =>
        let _buffer := view.buffer
        let _positions := p.attributes.find? (fun a => a.1 == GSemantic.positions)
        let _normals := p.attributes.find? (fun a => a.1 == GSemantic.normals)
        let _tex_coords := p.attributes.find? (fun a => a.1 == GSemantic.texCoords 0)
        Outcome.panicked "not yet implemented: Build vertex buffer using PrimitiveVertex struct and bytemuck"

/-- One iteration of the mesh loop, `resources.rs` lines 184-243:
default the name to `"unnamed"`, process every primitive in order
(any panic aborting the load), collect the mesh. -/
def processMesh (accessors : List GAccessor) (gm : GMeshIn) : Outcome GLTFMesh := do
  let primitives ← gm.primitives.mapM (processPrimitive accessors)
  pure { name := gm.name.getD "unnamed", primitives := primitives }

/-- The non-wasm body of `load_gltf`, `resources.rs` lines 164-246, from
the result of `gltf::Gltf::open(path)?` onward: the open failure is the
only typed error the function returns; every mesh is processed in order,
and a run that survives the whole loop ends at the bare `todo!()` at
line 245.  The function can therefore never return `Outcome.ok`. -/
def load_gltf (openResult : Except String GltfDoc) : Outcome GLTFModel :=
  match openResult with
  | Except.error e => Outcome.err e
  | Except.ok gltf =>
    match gltf.meshes.mapM (processMesh gltf.accessors) with
    | Outcome.ok _meshes => Outcome.panicked "not yet implemented"
    | Outcome.err e => Outcome.err e
    | Outcome.panicked msg => Outcome.panicked msg

/-! ## Concrete inputs used by the claim theorems -/

/-- A buffer view at byte offset 64, byte length 128, over an
external-URI buffer (the spec's worked example). -/
def uriView : BufferView :=
  { offset := 64, length := 128, buffer := { source := BufferSource.uri "model.bin" } }

/-- A buffer view over an embedded-binary buffer. -/
def binView : BufferView :=
  { offset := 0, length := 4, buffer := { source := BufferSource.bin } }

/-- A buffer view at offset 0, length 1, over an external-URI buffer. -/
def smallUriView : BufferView :=
  { offset := 0, length := 1, buffer := { source := BufferSource.uri "b.bin" } }

/-- A well-formed glTF document: one mesh, one primitive whose indices
accessor exists and resolves through a view to an external-URI buffer. -/
def wellFormedDoc : GltfDoc :=
  { accessors := [{ view := some uriView }],
    meshes := [{ name := some "mesh0",
                 primitives := [{ indices := some 0, attributes := [(GSemantic.positions, 1)] }] }] }

/-- A glTF document whose single primitive resolves to an embedded-binary
buffer. -/
def binDoc : GltfDoc :=
  { accessors := [{ view := some binView }],
    meshes := [{ name := some "mesh0",
                 primitives := [{ indices := some 0, attributes := [(GSemantic.positions, 1)] }] }] }

/-- A glTF document whose single primitive has no indices accessor. -/
def noIndicesDoc : GltfDoc :=
  { accessors := [],
    meshes := [{ name := none,
                 primitives := [{ indices := none, attributes := [(GSemantic.positions, 1)] }] }] }

/-- A fetch that returns a 100-byte buffer (too short for `uriView`,
which needs bytes up to offset 64 + length 128 = 192). -/
def fetch100 : String → Except String (List Nat) := fun _ => Except.ok (List.range 100)

/-- A fetch that returns a 200-byte buffer (long enough for `uriView`). -/
def fetch200 : String → Except String (List Nat) := fun _ => Except.ok (List.range 200)

/-- A fetch that returns the single byte 7. -/
def oneByteFetch : String → Except String (List Nat) := fun _ => Except.ok [7]

/-- A parsed OBJ submesh whose attribute streams disagree: one vertex of
positions (and normals) but an empty tex-coord stream — exactly what
`tobj` hands over for an OBJ file with no `vt` lines. -/
def mismatchObjModel : ObjModel :=
  { name := "tri",
    mesh := { positions := [1, 2, 3], texcoords := [], normals := [9, 9, 9],
              indices := [0], material_id := none } }

/-- A degenerate parsed OBJ submesh: empty streams, zero indices, no
material id. -/
def degObjModel : ObjModel :=
  { name := "deg",
    mesh := { positions := [], texcoords := [], normals := [], indices := [],
              material_id := none } }

/-- The mesh `buildMesh` produces from `degObjModel`: empty buffers and
`num_elements = 0`. -/
def degMesh : Mesh :=
  { name := "degenerate.obj",
    vertex_buffer := { contents := BufferContents.vertexData [], usage := BufferUsage.vertex },
    index_buffer := { contents := BufferContents.indexData [], usage := BufferUsage.index },
    num_elements := 0,
    material := 0 }

/-- A parsed OBJ submesh whose index stream has exactly `2 ^ 32` entries
(one shared vertex, `2 ^ 32 / 3` (rounded) triangles): `indices.len() as
u32` wraps to 0. -/
def hugeObjModel : ObjModel :=
  { name := "huge",
    mesh := { positions := [0, 0, 0], texcoords := [0, 0], normals := [0, 0, 0],
              indices := List.replicate (2 ^ 32) 0, material_id := none } }

/-! ## Helper lemmas -/

theorem idxRead_eq_ok {l : List Int} {i : Nat} {x : Int} :
    idxRead l i = Outcome.ok x ↔ l[i]? = some x := by
  unfold idxRead
  cases h : l[i]? <;> simp

theorem take_three_of_getElem (l : List Int) (n : Nat) (a b c : Int)
    (h0 : l[n]? = some a) (h1 : l[n + 1]? = some b) (h2 : l[n + 2]? = some c) :
    (l.drop n).take 3 = [a, b, c] := by
  obtain ⟨hn0, ha⟩ := List.getElem?_eq_some.mp h0
  obtain ⟨hn1, hb⟩ := List.getElem?_eq_some.mp h1
  obtain ⟨hn2, hc⟩ := List.getElem?_eq_some.mp h2
  rw [List.drop_eq_getElem_cons hn0, List.drop_eq_getElem_cons hn1,
    List.drop_eq_getElem_cons hn2, ha, hb, hc]
  rfl

theorem take_two_of_getElem (l : List Int) (n : Nat) (a b : Int)
    (h0 : l[n]? = some a) (h1 : l[n + 1]? = some b) :
    (l.drop n).take 2 = [a, b] := by
  obtain ⟨hn0, ha⟩ := List.getElem?_eq_some.mp h0
  obtain ⟨hn1, hb⟩ := List.getElem?_eq_some.mp h1
  rw [List.drop_eq_getElem_cons hn0, List.drop_eq_getElem_cons hn1, ha, hb]
  rfl

theorem vertexAt_eq_ok (m : ObjMesh) (i : Nat) (v : ModelVertex)
    (h : vertexAt m i = Outcome.ok v) :
    v = { position := (m.positions.drop (i * 3)).take 3,
          tex_coords := (m.texcoords.drop (i * 2)).take 2,
          normal := (m.normals.drop (i * 3)).take 3 } := by
  simp only [vertexAt, Outcome.monad_bind_eq_bind, Outcome.bind_eq_ok, Outcome.pure_eq_ok,
    Outcome.ok.injEq] at h
  obtain ⟨p0, hp0, p1, hp1, p2, hp2, t0, ht0, t1, ht1, n0, hn0, n1, hn1, n2, hn2, hv⟩ := h
  rw [idxRead_eq_ok] at hp0 hp1 hp2 ht0 ht1 hn0 hn1 hn2
  rw [take_three_of_getElem _ _ _ _ _ hp0 hp1 hp2, take_two_of_getElem _ _ _ _ ht0 ht1,
    take_three_of_getElem _ _ _ _ _ hn0 hn1 hn2]
  exact hv.symm

theorem buildVerticesAux_ok (m : ObjMesh) (idxs : List Nat) :
    ∀ vs : List ModelVertex, buildVerticesAux m idxs = Outcome.ok vs →
      vs.length = idxs.length ∧
      ∀ k (hk : k < idxs.length) (hv : k < vs.length),
        vertexAt m idxs[k] = Outcome.ok vs[k] := by
  induction idxs with
  | nil =>
    intro vs h
    simp only [buildVerticesAux, Outcome.ok.injEq] at h
    subst h
    simp
  | cons i rest ih =>
    intro vs h
    cases hvi : vertexAt m i with
    | ok v =>
      cases hrest : buildVerticesAux m rest with
      | ok vs0 =>
        simp only [buildVerticesAux, hvi, hrest, Outcome.ok.injEq] at h
        subst h
        obtain ⟨hlen, hptw⟩ := ih vs0 hrest
        refine ⟨by simp [hlen], ?_⟩
        intro k hk hv
        cases k with
        | zero => simpa using hvi
        | succ k =>
          simp only [List.getElem_cons_succ]
          exact hptw k (by simpa using hk) (by simpa using hv)
      | err e => simp [buildVerticesAux, hvi, hrest] at h
      | panicked msg => simp [buildVerticesAux, hvi, hrest] at h
    | err e => simp [buildVerticesAux, hvi] at h
    | panicked msg => simp [buildVerticesAux, hvi] at h

/-! ## Claim theorems -/

/-- C1: the claim says a load operation never aborts the process and
always returns a typed error value on failure.  The code violates this:
`load_gltf` run on a well-formed document — one mesh, one primitive whose
indices accessor resolves to an external-URI buffer view — aborts at the
`todo!` placeholder of line 210 instead of returning anything, and on a
document whose primitive lacks indices it aborts at the `unwrap` of
line 191. -/
theorem load_gltf_panics_on_placeholder :
    load_gltf (Except.ok wellFormedDoc) =
      Outcome.panicked "not yet implemented: Build vertex buffer using PrimitiveVertex struct and bytemuck" ∧
    load_gltf (Except.ok noIndicesDoc) = Outcome.panicked "primitive has no indices" := by
  exact ⟨rfl, rfl⟩

/-- C2: the claim says an embedded-binary buffer source yields the typed
error `UnsupportedFormat`.  The code instead panics: on a document whose
primitive resolves to an embedded-binary buffer, `load_gltf` aborts at the
line-210 `todo!` placeholder, and the (statically unreachable) `Source::Bin`
match arm of line 213 is `unimplemented!()`, also a panic — no
`UnsupportedFormat` value exists anywhere. -/
theorem load_gltf_bin_source_panics :
    load_gltf (Except.ok binDoc) =
      Outcome.panicked "not yet implemented: Build vertex buffer using PrimitiveVertex struct and bytemuck" ∧
    indexBufferFromSource oneByteFetch binView = Outcome.panicked "not implemented" := by
  exact ⟨rfl, rfl⟩

/-- C3: the claim says a primitive lacking an indices accessor yields the
typed error `MissingIndices`.  The code instead panics: the
`.context("primitive has no indices").unwrap()` at lines 188-191 aborts
the process; no `MissingIndices` value is returned to the caller. -/
theorem load_gltf_missing_indices_panics :
    load_gltf (Except.ok noIndicesDoc) = Outcome.panicked "primitive has no indices" := by
  exact rfl

/-- C4: the claim says `load_gltf` slices fetched external bytes to
`[offset, offset + length)` and returns the typed error `BufferSliceError`
on a short buffer.  The code never gets there: it aborts at the line-210
`todo!` before the slice (first conjunct).  The slice code itself (lines
214-231, statically unreachable) does take exactly the half-open range
`[64, 192)` of a 200-byte buffer (third conjunct), but on a 100-byte
buffer it aborts through `.context("buffer slice not found").unwrap()`
instead of returning an error (second conjunct). -/
theorem load_gltf_buffer_slice_panics :
    load_gltf (Except.ok wellFormedDoc) =
      Outcome.panicked "not yet implemented: Build vertex buffer using PrimitiveVertex struct and bytemuck" ∧
    indexBufferFromSource fetch100 uriView = Outcome.panicked "buffer slice not found" ∧
    indexBufferFromSource fetch200 uriView =
      Outcome.ok { contents := BufferContents.rawBytes (((List.range 200).drop 64).take 128),
                   usage := BufferUsage.vertex } := by
  refine ⟨rfl, ?_, ?_⟩ <;> decide

/-- C5: the claim says mismatched OBJ attribute streams make `load_model`
fail with a typed decoding error.  The code instead panics: on a parsed
submesh with one position vertex and an empty tex-coord stream (an OBJ
file with no `vt` lines), the unchecked `texcoords[i * 2]` indexing at
line 131 aborts the process; no typed error is returned. -/
theorem load_model_attribute_mismatch_panics :
    load_model_meshes "tri.obj" [mismatchObjModel] = Outcome.panicked "index out of bounds" := by
  decide

/-- C8: the claim says every index buffer is created with index-usage
flags in both loaders.  `load_model` does so (second and third conjuncts),
but the buffer `load_gltf` binds to `index_buffer` (lines 212-231,
statically unreachable behind the line-210 `todo!`) is created with
`wgpu::BufferUsages::VERTEX` (first conjunct) — vertex usage, not index
usage (fourth conjunct). -/
theorem gltf_index_buffer_vertex_usage :
    indexBufferFromSource oneByteFetch smallUriView =
      Outcome.ok { contents := BufferContents.rawBytes [7], usage := BufferUsage.vertex } ∧
    (buildMesh "cube.obj" sampleObjModel = Outcome.ok sampleMesh ∧
      sampleMesh.vertex_buffer.usage = BufferUsage.vertex ∧
      sampleMesh.index_buffer.usage = BufferUsage.index) ∧
    BufferUsage.vertex ≠ BufferUsage.index := by
  refine ⟨by decide, ⟨by decide, rfl, rfl⟩, by decide⟩

/-- C9 counterexample: the claim says a source mesh with zero indices
makes decoding fail rather than produce a Mesh with an empty index
buffer.  On a degenerate parsed submesh `load_model`'s mesh construction
succeeds and produces exactly such a mesh: empty index data and
`num_elements = 0`. -/
theorem load_model_empty_indices_mesh :
    buildMesh "degenerate.obj" degObjModel = Outcome.ok degMesh ∧
    degMesh.index_buffer.contents = BufferContents.indexData [] ∧
    degMesh.num_elements = 0 := by
  refine ⟨by decide, rfl, rfl⟩

/-- C6 (amended): in every Mesh produced by `load_model`'s mesh
construction, the vertex list has one entry per position triple, vertex
`i` is read from `positions[i*3 .. i*3+3]`, `texcoords[i*2 .. i*2+2]` and
`normals[i*3 .. i*3+3]`, the index buffer holds exactly the parsed
triangulated index sequence, and `num_elements` is the index-sequence
length reduced modulo `2 ^ 32` (the `as u32` cast of line 155). -/
theorem load_model_vertex_interleaving (fn : String) (mdl : ObjModel) (mesh : Mesh)
    (h : buildMesh fn mdl = Outcome.ok mesh) :
    (∃ vs, mesh.vertex_buffer.contents = BufferContents.vertexData vs ∧
       vs.length = mdl.mesh.positions.length / 3 ∧
       ∀ i (hi : i < vs.length),
         vs[i] = { position := (mdl.mesh.positions.drop (i * 3)).take 3,
                   tex_coords := (mdl.mesh.texcoords.drop (i * 2)).take 2,
                   normal := (mdl.mesh.normals.drop (i * 3)).take 3 }) ∧
    mesh.index_buffer.contents = BufferContents.indexData mdl.mesh.indices ∧
    mesh.num_elements = mdl.mesh.indices.length % 2 ^ 32 := by
  obtain ⟨vs, hvs, rfl⟩ := Outcome.map_eq_ok.mp h
  obtain ⟨hlen, hptw⟩ := buildVerticesAux_ok mdl.mesh _ vs hvs
  refine ⟨⟨vs, rfl, ?_, ?_⟩, rfl, rfl⟩
  · rw [hlen, List.length_range]
  · intro i hi
    have hk : i < (List.range (mdl.mesh.positions.length / 3)).length := by
      rw [← hlen]; exact hi
    have hvi := hptw i hk hi
    rw [List.getElem_range] at hvi
    exact vertexAt_eq_ok _ _ _ hvi

/-- The mesh `buildMesh` produces from `hugeObjModel`: the `as u32` cast
wraps `num_elements` to 0. -/
def hugeMesh : Mesh :=
  { name := "huge.obj",
    vertex_buffer :=
      { contents := BufferContents.vertexData
          [{ position := [0, 0, 0], tex_coords := [0, 0], normal := [0, 0, 0] }],
        usage := BufferUsage.vertex },
    index_buffer :=
      { contents := BufferContents.indexData (List.replicate (2 ^ 32) 0),
        usage := BufferUsage.index },
    num_elements := 0,
    material := 0 }

/-- C6 counterexample: the claim says `num_elements` equals the length of
the parsed index sequence.  On a parsed submesh with exactly `2 ^ 32`
indices the `as u32` cast at line 155 wraps: the produced mesh has
`num_elements = 0`, not `2 ^ 32`. -/
theorem load_model_num_elements_truncates :
    buildMesh "huge.obj" hugeObjModel = Outcome.ok hugeMesh ∧
    hugeMesh.num_elements ≠ hugeObjModel.mesh.indices.length := by
  have hidx : hugeObjModel.mesh.indices = List.replicate (2 ^ 32) 0 := rfl
  constructor
  · apply Outcome.map_eq_ok.mpr
    refine ⟨[{ position := [0, 0, 0], tex_coords := [0, 0], normal := [0, 0, 0] }],
      by decide, ?_⟩
    have hnum : hugeObjModel.mesh.indices.length % 2 ^ 32 = 0 := by
      rw [hidx, List.length_replicate, Nat.mod_self]
    have hmat : hugeObjModel.mesh.material_id.getD 0 = 0 := rfl
    rw [Mesh.mk.injEq]
    exact ⟨rfl, rfl, rfl, hnum, hmat⟩
  · rw [hidx, List.length_replicate]
    have : hugeMesh.num_elements = 0 := rfl
    rw [this]
    norm_num

/-- C6 witness: the interleaving theorem instantiated on a concrete
one-vertex submesh. -/
theorem load_model_vertex_interleaving_witness :
    (∃ vs, sampleMesh.vertex_buffer.contents = BufferContents.vertexData vs ∧
       vs.length = sampleObjModel.mesh.positions.length / 3 ∧
       ∀ i (hi : i < vs.length),
         vs[i] = { position := (sampleObjModel.mesh.positions.drop (i * 3)).take 3,
                   tex_coords := (sampleObjModel.mesh.texcoords.drop (i * 2)).take 2,
                   normal := (sampleObjModel.mesh.normals.drop (i * 3)).take 3 }) ∧
    sampleMesh.index_buffer.contents = BufferContents.indexData sampleObjModel.mesh.indices ∧
    sampleMesh.num_elements = sampleObjModel.mesh.indices.length % 2 ^ 32 :=
  load_model_vertex_interleaving "cube.obj" sampleObjModel sampleMesh (by decide)

/-- C7: in every Mesh produced by `load_model`'s mesh construction, a
submesh carrying a material id yields `material` equal to that id, and a
submesh carrying none yields `material = 0` (`material_id.unwrap_or(0)`,
line 156). -/
theorem load_model_material_default (fn : String) (mdl : ObjModel) (mesh : Mesh)
    (h : buildMesh fn mdl = Outcome.ok mesh) :
    (∀ mid, mdl.mesh.material_id = some mid → mesh.material = mid) ∧
    (mdl.mesh.material_id = none → mesh.material = 0) := by
  obtain ⟨vs, hvs, rfl⟩ := Outcome.map_eq_ok.mp h
  constructor
  · intro mid hmid
    show mdl.mesh.material_id.getD 0 = mid
    rw [hmid]
    rfl
  · intro hnone
    show mdl.mesh.material_id.getD 0 = 0
    rw [hnone]
    rfl

/-- C7 witness: the material rule instantiated on a submesh with material
id 2 and on a submesh with no material id. -/
theorem load_model_material_default_witness :
    ((∀ mid, sampleObjModel.mesh.material_id = some mid → sampleMesh.material = mid) ∧
      (sampleObjModel.mesh.material_id = none → sampleMesh.material = 0)) ∧
    ((∀ mid, degObjModel.mesh.material_id = some mid → degMesh.material = mid) ∧
      (degObjModel.mesh.material_id = none → degMesh.material = 0)) :=
  ⟨load_model_material_default "cube.obj" sampleObjModel sampleMesh (by decide),
   load_model_material_default "degenerate.obj" degObjModel degMesh (by decide)⟩

/-- C9 (amended): `load_model`'s mesh construction performs no
non-emptiness validation; a parsed submesh whose index stream is empty
yields a Mesh whose index buffer is empty and whose `num_elements` is 0
(rather than any decoding failure). -/
theorem load_model_no_emptiness_check (fn : String) (mdl : ObjModel) (mesh : Mesh)
    (h : buildMesh fn mdl = Outcome.ok mesh) (he : mdl.mesh.indices = []) :
    mesh.index_buffer.contents = BufferContents.indexData [] ∧ mesh.num_elements = 0 := by
  obtain ⟨vs, hvs, rfl⟩ := Outcome.map_eq_ok.mp h
  constructor
  · show BufferContents.indexData mdl.mesh.indices = BufferContents.indexData []
    rw [he]
  · show mdl.mesh.indices.length % 2 ^ 32 = 0
    rw [he]
    rfl

/-- C9 witness: the no-validation theorem instantiated on the degenerate
submesh. -/
theorem load_model_no_emptiness_check_witness :
    degMesh.index_buffer.contents = BufferContents.indexData [] ∧ degMesh.num_elements = 0 :=
  load_model_no_emptiness_check "degenerate.obj" degObjModel degMesh (by decide) rfl

/-- C10: every Mesh in the mesh list `load_model` returns has its `name`
field equal to the `file_name` argument of the load call (line 152), not
to the object name parsed from the OBJ text. -/
theorem load_model_mesh_name_is_file_name (file_name : String) (models : List ObjModel)
    (meshes : List Mesh) (h : load_model_meshes file_name models = Outcome.ok meshes) :
    ∀ mesh ∈ meshes, mesh.name = file_name := by
  induction models generalizing meshes with
  | nil =>
    simp only [load_model_meshes, Outcome.ok.injEq] at h
    subst h
    simp
  | cons mdl rest ih =>
    cases hm : buildMesh file_name mdl with
    | ok mesh0 =>
      cases hr : load_model_meshes file_name rest with
      | ok meshes0 =>
        simp only [load_model_meshes, hm, hr, Outcome.ok.injEq] at h
        subst h
        intro mesh hmem
        rcases List.mem_cons.mp hmem with hhead | htail
        · subst hhead
          obtain ⟨vs, hvs, rfl⟩ := Outcome.map_eq_ok.mp hm
          rfl
        · exact ih meshes0 hr mesh htail
      | err e => simp [load_model_meshes, hm, hr] at h
      | panicked msg => simp [load_model_meshes, hm, hr] at h
    | err e => simp [load_model_meshes, hm] at h
    | panicked msg => simp [load_model_meshes, hm] at h

/-- C10 witness: on the sample submesh, whose parsed object name is
`cube`, the produced mesh is named after the file `cube.obj`. -/
theorem load_model_mesh_name_is_file_name_witness :
    sampleMesh.name = "cube.obj" :=
  load_model_mesh_name_is_file_name "cube.obj" [sampleObjModel] [sampleMesh] (by decide)
    sampleMesh (by simp)
